import Mathlib

/-!
# pysftpserver — verification of the hook layer and the spec-modelled engine

Shallow embedding of the repository's hook interface (`pysftpserver/hook.py`),
the URL-request hook (`pysftpserver/urlrequesthook.py`), and — where the engine
itself (`pysftpserver/server.py`) is referenced but not part of the sources —
models built from the specification's description of the dispatcher, the handle
table and the attribute codec.
-/

namespace PySftp

/-- A model of the Python values that flow through the hook layer: strings,
byte strings, integers, lists, tuples, dicts (string-keyed), and `None`. -/
inductive PyVal where
  | str (s : String)
  | bytes (b : List Nat)
  | int (n : Int)
  | list (vs : List PyVal)
  | tuple (vs : List PyVal)
  | dict (d : List (String × PyVal))
  | none

/-- `isinstance(value, (str, bytes))` on a `PyVal`. -/
def isStringLike : PyVal → Bool
  | .str _ => true
  | .bytes _ => true
  | _ => false

/-- `isinstance(value, Iterable)` on a `PyVal`: in Python, `str`, `bytes`,
`list`, `tuple` and `dict` are all `Iterable`; `int` and `None` are not. -/
def isIterable : PyVal → Bool
  | .str _ => true
  | .bytes _ => true
  | .list _ => true
  | .tuple _ => true
  | .dict _ => true
  | _ => false

/-- The parameter names (after `self`) of each method of the `SftpHook` base
class, keyed by method name, exactly as declared in `pysftpserver/hook.py`.
`none` means the class defines no method of that name. -/
def sftpHookMethodParams : String → Option (List String)
  | "init" => some ["server"]
  | "realpath" => some ["server", "filename"]
  | "stat" => some ["server", "filename"]
  | "lstat" => some ["server", "filename"]
  | "fstat" => some ["server", "handle_id"]
  | "setstat" => some ["server", "filename", "attrs"]
  | "fsetstat" => some ["server", "handle_id", "attrs"]
  | "opendir" => some ["server", "filename"]
  | "readdir" => some ["server", "handle_id"]
  | "close" => some ["server", "handle_id"]
  | "open" => some ["server", "filename", "flags", "attrs"]
  | "read" => some ["server", "handle_id", "offset", "size"]
  | "write" => some ["server", "handle_id", "offset"]
  | "mkdir" => some ["server", "filename", "attrs"]
  | "rmdir" => some ["server", "filename"]
  | "rm" => some ["server", "filename"]
  | "rename" => some ["server", "oldpath", "newpath"]
  | "symlink" => some ["server", "linkpath", "targetpath"]
  | "readlink" => some ["server", "filename"]
  | _ => none

/-- The parameter names (after `self`) of each overriding method of
`UrlRequestHook`, exactly as declared in `pysftpserver/urlrequesthook.py`.
The only signature that differs from the base class is `write`, which takes
an additional `chunk` parameter. -/
def urlRequestHookMethodParams : String → Option (List String)
  | "write" => some ["server", "handle_id", "offset", "chunk"]
  | m => sftpHookMethodParams m

/-- The opcode names of the dispatch table (§4.5 of the spec; the
`SSH2_FXP_*` constants imported by the test suite). -/
def dispatchOpcodes : List String :=
  ["OPEN", "CLOSE", "READ", "WRITE", "LSTAT", "FSTAT", "SETSTAT", "FSETSTAT",
   "OPENDIR", "READDIR", "REMOVE", "MKDIR", "RMDIR", "REALPATH", "STAT",
   "RENAME", "READLINK", "SYMLINK"]

/-- The operation name an opcode stands for: its lowercased name (the
natural reading of a method "named after that opcode's operation"). -/
def opcodeOperationName : String → String
  | "OPEN" => "open"
  | "CLOSE" => "close"
  | "READ" => "read"
  | "WRITE" => "write"
  | "LSTAT" => "lstat"
  | "FSTAT" => "fstat"
  | "SETSTAT" => "setstat"
  | "FSETSTAT" => "fsetstat"
  | "OPENDIR" => "opendir"
  | "READDIR" => "readdir"
  | "REMOVE" => "remove"
  | "MKDIR" => "mkdir"
  | "RMDIR" => "rmdir"
  | "REALPATH" => "realpath"
  | "STAT" => "stat"
  | "RENAME" => "rename"
  | "READLINK" => "readlink"
  | "SYMLINK" => "symlink"
  | s => s

/-- The hook method actually invoked for each opcode, as the test suite
exercises it (`SSH2_FXP_REMOVE` triggers the hook method named `rm`,
every other opcode triggers the method named by lowercasing the opcode). -/
def hookMethodFor : String → String
  | "REMOVE" => "rm"
  | op => opcodeOperationName op

/-- The hook methods notified for the handle-based operations
(FSTAT, FSETSTAT, READ, WRITE, READDIR, CLOSE). -/
def handleBasedMethods : List String :=
  ["fstat", "fsetstat", "read", "write", "readdir", "close"]

/-- `UrlRequestHook.force_to_iterable` (urlrequesthook.py:62-85): a `str` or
`bytes` value is returned inside a single-element tuple; any other iterable is
returned unchanged; anything else raises `TypeError`. -/
def force_to_iterable (value : PyVal) : Except String PyVal :=
  if isStringLike value then .ok (.tuple [value])
  else if isIterable value then .ok value
  else .error "Provided value should be a string or an iterable."

/-- `s.startswith(pre)` over the characters of the strings. -/
def strStartsWith (s pre : String) : Bool := pre.toList.isPrefixOf s.toList

/-- `s.endswith(suf)` over the characters of the strings. -/
def strEndsWith (s suf : String) : Bool := suf.toList.isSuffixOf s.toList

/-- `os.path.join(a, b)` for two POSIX path strings: an absolute second
component replaces the first; otherwise the components are concatenated,
inserting `/` unless the first is empty or already ends in `/`. -/
def pathJoin (a b : String) : String :=
  if strStartsWith b "/" then b
  else if a = "" ∨ strEndsWith a "/" then a ++ b
  else a ++ "/" ++ b

/-- `d.get(k)` on a string-keyed dict modelled as an association list. -/
def dictGet (d : List (String × PyVal)) (k : String) : Option PyVal :=
  (d.find? (fun p => p.1 = k)).map Prod.snd

/-- `d[k] = v` on a string-keyed dict modelled as an association list:
replaces the value of the first entry with key `k`, or appends a new entry. -/
def dictSet (d : List (String × PyVal)) (k : String) (v : PyVal) :
    List (String × PyVal) :=
  match d with
  | [] => [(k, v)]
  | p :: rest => if p.1 = k then (k, v) :: rest else p :: dictSet rest k v

/-- The elements produced by iterating a `PyVal` (`for x in value`):
lists and tuples yield their elements, dicts their keys, strings their
one-character substrings, byte strings their integers. -/
def iterElems : PyVal → List PyVal
  | .list vs => vs
  | .tuple vs => vs
  | .dict d => d.map (fun p => .str p.1)
  | .str s => s.toList.map (fun c => .str (String.mk [c]))
  | .bytes b => b.map (fun n => .int n)
  | _ => []

/-- Using a `PyVal` as one argument of `os.path.join`: only a `str` is
accepted, anything else raises `TypeError`. -/
def elemStr : PyVal → Except String String
  | .str s => .ok s
  | _ => .error "TypeError: argument must be str"

/-- All elements of a list of `PyVal`s as strings, or the first `TypeError`. -/
def strList : List PyVal → Except String (List String)
  | [] => .ok []
  | v :: vs =>
    match elemStr v with
    | .error e => .error e
    | .ok s =>
      match strList vs with
      | .error e => .error e
      | .ok t => .ok (s :: t)

/-- The attributes of a `UrlRequestHook` instance
(urlrequesthook.py:43-60). -/
structure UrlRequestHook where
  request_url : String
  request_method : String
  urls_mapping : List (String × PyVal)
  paths_mapping : List (String × PyVal)

/-- `UrlRequestHook.__init__` with only `request_url` supplied: the request
method defaults to `'POST'` and both mappings default to empty dicts. -/
def UrlRequestHook.defaultInit (request_url : String) : UrlRequestHook :=
  { request_url := request_url
    request_method := "POST"
    urls_mapping := []
    paths_mapping := [] }

/-- `UrlRequestHook.get_urls` (urlrequesthook.py:87-103): the base urls are
`urls_mapping.get(method_name, request_url)` forced to an iterable, the paths
are `paths_mapping.get(method_name, method_name)` forced to an iterable, and
the produced urls are `os.path.join(u, p)` for each base url `u` (outer loop)
and each path `p` (inner loop). -/
def get_urls (h : UrlRequestHook) (method_name : String) :
    Except String (List String) :=
  match force_to_iterable
      ((dictGet h.urls_mapping method_name).getD (.str h.request_url)) with
  | .error e => .error e
  | .ok base_urls =>
    match force_to_iterable
        ((dictGet h.paths_mapping method_name).getD (.str method_name)) with
    | .error e => .error e
    | .ok paths =>
      match strList (iterElems base_urls) with
      | .error e => .error e
      | .ok us =>
        match strList (iterElems paths) with
        | .error e => .error e
        | .ok ps => .ok (us.flatMap (fun u => ps.map (fun p => pathJoin u p)))

/-- One HTTP request as issued by `requests.request(method, url, data=data)`. -/
structure HttpRequest where
  method : String
  url : String
  data : List (String × PyVal)

/-- `UrlRequestHook.send_requests` (urlrequesthook.py:105-127), fully
consumed (each hook method wraps it in `list(...)`): a missing `data` becomes
a fresh empty dict, `data['method']` is set to the method name, and one
request is issued per url produced by `get_urls`, with `request_method` as
the HTTP method and the mutated dict as the request data. Returns the
mutated dict together with the issued requests. -/
def send_requests (h : UrlRequestHook) (method_name : String)
    (data : Option (List (String × PyVal))) :
    Except String (List (String × PyVal) × List HttpRequest) :=
  let d := dictSet (data.getD []) "method" (.str method_name)
  match get_urls h method_name with
  | .error e => .error e
  | .ok urls => .ok (d, urls.map (fun u => ⟨h.request_method, u, d⟩))

/-- `UrlRequestHook.fstat` (urlrequesthook.py:144-147): the hook itself
resolves the handle id to a filename through
`server.get_filename_from_handle_id` and sends that filename, not the raw
handle id. The server is abstracted as its resolution map. -/
def UrlRequestHook.fstat (h : UrlRequestHook)
    (get_filename_from_handle_id : String → Option (PyVal × Bool))
    (handle_id : String) :
    Except String (List (String × PyVal) × List HttpRequest) :=
  match get_filename_from_handle_id handle_id with
  | some (filename, _) => send_requests h "fstat" (some [("filename", filename)])
  | Option.none => .error "unknown handle id"

/-! ## Attribute codec, modelled from the spec

The engine module that implements the attribute codec (`pysftpserver/server.py`)
is not among the sources; the test suite imports its `SSH2_FILEXFER_ATTR_*`
flag constants. The codec below is modelled from §4.2 of the spec. -/

/-- The SIZE attribute flag bit (value fixed by the SFTP v3 standard). -/
def SSH2_FILEXFER_ATTR_SIZE : Nat := 1

/-- The UIDGID attribute flag bit. -/
def SSH2_FILEXFER_ATTR_UIDGID : Nat := 2

/-- The PERMISSIONS attribute flag bit. -/
def SSH2_FILEXFER_ATTR_PERMISSIONS : Nat := 4

/-- The ACMODTIME attribute flag bit. -/
def SSH2_FILEXFER_ATTR_ACMODTIME : Nat := 8

/-- Modelled from the spec: the attrs record of §3 — a struct of optional
fields gated by a bitmask, with uid/gid and atime/mtime always paired. -/
structure Attrs where
  size : Option Nat
  uidgid : Option (Nat × Nat)
  permissions : Option Nat
  acmodtime : Option (Nat × Nat)
deriving DecidableEq

/-- The flags word computed from which optional fields are present. -/
def attrsFlags (a : Attrs) : Nat :=
  (if a.size.isSome then SSH2_FILEXFER_ATTR_SIZE else 0) +
  (if a.uidgid.isSome then SSH2_FILEXFER_ATTR_UIDGID else 0) +
  (if a.permissions.isSome then SSH2_FILEXFER_ATTR_PERMISSIONS else 0) +
  (if a.acmodtime.isSome then SSH2_FILEXFER_ATTR_ACMODTIME else 0)

/-- A `u32` as four big-endian bytes. -/
def u32be (n : Nat) : List Nat :=
  [n / 16777216 % 256, n / 65536 % 256, n / 256 % 256, n % 256]

/-- A `u64` as eight big-endian bytes. -/
def u64be (n : Nat) : List Nat :=
  u32be (n / 4294967296) ++ u32be (n % 4294967296)

/-- The wire bytes of an optional `u64` field: present iff `some`. -/
def encOptU64 : Option Nat → List Nat
  | some s => u64be s
  | Option.none => []

/-- The wire bytes of an optional `u32` field: present iff `some`. -/
def encOptU32 : Option Nat → List Nat
  | some s => u32be s
  | Option.none => []

/-- The wire bytes of an optional pair of `u32`s (uid/gid, atime/mtime):
present iff `some`. -/
def encOptPair : Option (Nat × Nat) → List Nat
  | some p => u32be p.1 ++ u32be p.2
  | Option.none => []

/-- Modelled from the spec: `encode_attrs` (§4.2) — the flags word followed
by the present fields in the fixed order SIZE, UIDGID, PERMISSIONS,
ACMODTIME. -/
def encode_attrs (a : Attrs) : List Nat :=
  u32be (attrsFlags a) ++ encOptU64 a.size ++ encOptPair a.uidgid
    ++ encOptU32 a.permissions ++ encOptPair a.acmodtime

/-- Read a big-endian `u32` from the front of a byte list. -/
def readU32 : List Nat → Option (Nat × List Nat)
  | b0 :: b1 :: b2 :: b3 :: rest =>
      some (b0 * 16777216 + b1 * 65536 + b2 * 256 + b3, rest)
  | _ => Option.none

/-- Read a big-endian `u64` from the front of a byte list. -/
def readU64 (bs : List Nat) : Option (Nat × List Nat) :=
  match readU32 bs with
  | Option.none => Option.none
  | some (hi, r) =>
    match readU32 r with
    | Option.none => Option.none
    | some (lo, r2) => some (hi * 4294967296 + lo, r2)

/-- Read an optional `u64` field, consumed only when its flag bit is set. -/
def readOptU64 (cond : Bool) (bs : List Nat) :
    Option (Option Nat × List Nat) :=
  if cond then (readU64 bs).map (fun p => (some p.1, p.2))
  else some (Option.none, bs)

/-- Read an optional `u32` field, consumed only when its flag bit is set. -/
def readOptU32 (cond : Bool) (bs : List Nat) :
    Option (Option Nat × List Nat) :=
  if cond then (readU32 bs).map (fun p => (some p.1, p.2))
  else some (Option.none, bs)

/-- Read an optional pair of `u32`s (uid/gid or atime/mtime), consumed only
when its flag bit is set. -/
def readOptPair (cond : Bool) (bs : List Nat) :
    Option (Option (Nat × Nat) × List Nat) :=
  if cond then
    match readU32 bs with
    | some (x, r) => (readU32 r).map (fun p => (some (x, p.1), p.2))
    | Option.none => Option.none
  else some (Option.none, bs)

/-- Modelled from the spec: `decode_attrs` (§4.2) — reads the flags word,
then each optional field in the fixed order SIZE, UIDGID, PERMISSIONS,
ACMODTIME, consuming only the fields whose flag bit is set; fields absent
from the flags are never synthesized. -/
def decode_attrs (bs : List Nat) : Option (Attrs × List Nat) :=
  (readU32 bs).bind (fun fr =>
    (readOptU64 (fr.1 &&& SSH2_FILEXFER_ATTR_SIZE ≠ 0) fr.2).bind (fun s1 =>
      (readOptPair (fr.1 &&& SSH2_FILEXFER_ATTR_UIDGID ≠ 0) s1.2).bind (fun u2 =>
        (readOptU32 (fr.1 &&& SSH2_FILEXFER_ATTR_PERMISSIONS ≠ 0) u2.2).bind (fun p3 =>
          (readOptPair (fr.1 &&& SSH2_FILEXFER_ATTR_ACMODTIME ≠ 0) p3.2).map (fun a4 =>
            (⟨s1.1, u2.1, p3.1, a4.1⟩, a4.2))))))

/-- The machine-integer bounds of an attrs record: size fits a `u64`, the
other fields fit `u32`s. -/
def AttrsBounded (a : Attrs) : Prop :=
  a.size.getD 0 < 18446744073709551616 ∧
  (a.uidgid.getD (0, 0)).1 < 4294967296 ∧
  (a.uidgid.getD (0, 0)).2 < 4294967296 ∧
  a.permissions.getD 0 < 4294967296 ∧
  (a.acmodtime.getD (0, 0)).1 < 4294967296 ∧
  (a.acmodtime.getD (0, 0)).2 < 4294967296

instance (a : Attrs) : Decidable (AttrsBounded a) := by
  unfold AttrsBounded; infer_instance

/-! ## Dispatcher, handle table and hook boundary, modelled from the spec

The engine (`pysftpserver/server.py`) is referenced by the sources but not
included among them; the model below follows §4.3–§4.5 and §7 of the spec. -/

/-- Modelled from the spec: the fixed status vocabulary of §4.4. -/
inductive StatusCode where
  | ok
  | eof
  | noSuchFile
  | permissionDenied
  | failure
  | badMessage
  | opUnsupported
deriving DecidableEq

/-- Modelled from the spec: a handle's kind — a file, or a directory carrying
the cursor of not-yet-returned entries for READDIR pagination (§4.3). -/
inductive HandleKind where
  | file
  | dir (remaining : List (List Nat))
deriving DecidableEq

/-- Modelled from the spec: one entry of the handle table (§3): the original
path and the kind (with the directory cursor). -/
structure Handle where
  path : List Nat
  kind : HandleKind
deriving DecidableEq

/-- Modelled from the spec: the session state (§3): the table of live
handles keyed by their opaque string ids, and the monotonic counter. -/
structure SessionState where
  handles : List (String × Handle)
  next_handle_id : Nat
deriving DecidableEq

/-- `resolve(handle_id)` on the handle table (§4.3). -/
def lookupHandle (st : SessionState) (hid : String) : Option Handle :=
  (st.handles.find? (fun p => p.1 = hid)).map Prod.snd

/-- `free(handle_id)` on the handle table (§4.3): every entry with that id
is removed. -/
def freeHandle (st : SessionState) (hid : String) : SessionState :=
  { st with handles := st.handles.filter (fun p => p.1 ≠ hid) }

/-- Replace the entry of a live handle id (used by READDIR to advance the
directory cursor). -/
def setHandle (st : SessionState) (hid : String) (h : Handle) : SessionState :=
  { st with handles := st.handles.map (fun p => if p.1 = hid then (hid, h) else p) }

/-- Modelled from the spec: the handle-based requests of §4.5's table. -/
inductive Request where
  | fstat (hid : String)
  | fsetstat (hid : String) (attrs : Attrs)
  | read (hid : String) (offset : Nat) (len : Nat)
  | write (hid : String) (offset : Nat) (data : List Nat)
  | readdir (hid : String)
  | close (hid : String)

/-- The handle id a request references. -/
def Request.handleId : Request → String
  | .fstat hid => hid
  | .fsetstat hid _ => hid
  | .read hid _ _ => hid
  | .write hid _ _ => hid
  | .readdir hid => hid
  | .close hid => hid

/-- Modelled from the spec: one reply (§4.4): a status, or the data of a
data-returning request. -/
inductive Reply where
  | status (code : StatusCode)
  | attrsReply (a : Attrs)
  | dataReply (bs : List Nat)
  | nameReply (entries : List (List Nat))
deriving DecidableEq

/-- Modelled from the spec: the Storage Backend collaborator (§6),
abstracted as outcome functions indexed by the handle's path. -/
structure Backend where
  fstat : List Nat → Except StatusCode Attrs
  setattrs : List Nat → Attrs → Except StatusCode Unit
  read : List Nat → Nat → Nat → Except StatusCode (List Nat)
  write : List Nat → Nat → List Nat → Except StatusCode Unit

/-- Modelled from the spec: one `Ready`-state dispatch step (§4.5) for the
handle-based requests. An unknown or already-freed handle id yields a
FAILURE status and leaves the state unchanged (§7); CLOSE frees the handle;
READDIR returns the cursor's remaining entries and exhausts the cursor, or
an EOF status once the cursor is empty (idempotent terminal state, §4.3). -/
def step (b : Backend) (st : SessionState) (r : Request) :
    Reply × SessionState :=
  match r with
  | .fstat hid =>
    match lookupHandle st hid with
    | Option.none => (.status .failure, st)
    | some h =>
      match b.fstat h.path with
      | .ok a => (.attrsReply a, st)
      | .error c => (.status c, st)
  | .fsetstat hid attrs =>
    match lookupHandle st hid with
    | Option.none => (.status .failure, st)
    | some h =>
      match b.setattrs h.path attrs with
      | .ok _ => (.status .ok, st)
      | .error c => (.status c, st)
  | .read hid offset len =>
    match lookupHandle st hid with
    | Option.none => (.status .failure, st)
    | some h =>
      match b.read h.path offset len with
      | .ok bs => (.dataReply bs, st)
      | .error c => (.status c, st)
  | .write hid offset data =>
    match lookupHandle st hid with
    | Option.none => (.status .failure, st)
    | some h =>
      match b.write h.path offset data with
      | .ok _ => (.status .ok, st)
      | .error c => (.status c, st)
  | .readdir hid =>
    match lookupHandle st hid with
    | Option.none => (.status .failure, st)
    | some h =>
      match h.kind with
      | .file => (.status .failure, st)
      | .dir [] => (.status .eof, st)
      | .dir (e :: es) =>
          (.nameReply (e :: es), setHandle st hid { h with kind := .dir [] })
  | .close hid =>
    match lookupHandle st hid with
    | Option.none => (.status .failure, st)
    | some _ => (.status .ok, freeHandle st hid)

/-- The outcome of one hook callback invocation: a returned value, or an
exception raised inside the hook. -/
inductive HookOutcome where
  | value (v : PyVal)
  | raised (msg : String)

/-- Modelled from the spec: the dispatcher's hook boundary (§4.5, §7) — the
hook's return value is ignored and an exception raised inside the hook is
caught and only appended to the log. -/
def absorbHook (log : List String) (o : HookOutcome) : List String :=
  match o with
  | .value _ => log
  | .raised msg => log ++ [msg]

/-- Modelled from the spec: processing one request (§4.5): the backend step
produces the reply and the next session state; the hook is invoked through
the absorbing boundary, contributing only to the log. -/
def dispatch (b : Backend) (st : SessionState) (log : List String)
    (r : Request) (o : HookOutcome) :
    Reply × SessionState × List String :=
  let rs := step b st r
  (rs.1, rs.2, absorbHook log o)

/-- A concrete backend whose every operation fails, used to evaluate the
dispatcher model on concrete inputs. -/
def failBackend : Backend :=
  { fstat := fun _ => .error .failure
    setattrs := fun _ _ => .error .failure
    read := fun _ _ _ => .error .failure
    write := fun _ _ _ => .error .failure }

/-- A concrete session state holding one open file handle with id `"1"`. -/
def oneFileState : SessionState :=
  { handles := [("1", { path := [102], kind := .file })], next_handle_id := 2 }

/-- A concrete session state holding one exhausted directory handle with
id `"1"`. -/
def exhaustedDirState : SessionState :=
  { handles := [("1", { path := [102], kind := .dir [] })], next_handle_id := 2 }

/-- A concrete `UrlRequestHook` configuration used to evaluate the hook
model on concrete inputs. -/
def sampleHook : UrlRequestHook :=
  { request_url := "test_url"
    request_method := "POST"
    urls_mapping := []
    paths_mapping := [] }

/-- A concrete `UrlRequestHook` configuration with multiple base urls and
multiple paths mapped for `readlink`, as in the test suite. -/
def mappedHook : UrlRequestHook :=
  { request_url := "test_url"
    request_method := "POST"
    urls_mapping :=
      [("readlink", .list [.str "test_url_1", .str "test_url_2"])]
    paths_mapping :=
      [("readlink", .list [.str "test_path_1", .str "test_path_2"])] }

/-! ## Helper lemmas -/

theorem readU32_u32be (n : Nat) (rest : List Nat) (h : n < 4294967296) :
    readU32 (u32be n ++ rest) = some (n, rest) := by
  simp [u32be, readU32]
  omega

theorem readU64_u64be (n : Nat) (rest : List Nat)
    (h : n < 18446744073709551616) :
    readU64 (u64be n ++ rest) = some (n, rest) := by
  have h1 : n / 4294967296 < 4294967296 := by omega
  have h2 : n % 4294967296 < 4294967296 := by omega
  simp [u64be, readU64, List.append_assoc, readU32_u32be _ _ h1,
    readU32_u32be _ _ h2]
  omega

theorem readOptU64_enc (o : Option Nat) (rest : List Nat)
    (h : o.getD 0 < 18446744073709551616) :
    readOptU64 o.isSome (encOptU64 o ++ rest) = some (o, rest) := by
  cases o with
  | none => simp [readOptU64, encOptU64]
  | some s =>
    simp only [Option.getD_some] at h
    simp [readOptU64, encOptU64, readU64_u64be _ _ h]

theorem readOptU32_enc (o : Option Nat) (rest : List Nat)
    (h : o.getD 0 < 4294967296) :
    readOptU32 o.isSome (encOptU32 o ++ rest) = some (o, rest) := by
  cases o with
  | none => simp [readOptU32, encOptU32]
  | some s =>
    simp only [Option.getD_some] at h
    simp [readOptU32, encOptU32, readU32_u32be _ _ h]

theorem readOptPair_enc (o : Option (Nat × Nat)) (rest : List Nat)
    (h1 : (o.getD (0, 0)).1 < 4294967296)
    (h2 : (o.getD (0, 0)).2 < 4294967296) :
    readOptPair o.isSome (encOptPair o ++ rest) = some (o, rest) := by
  cases o with
  | none => simp [readOptPair, encOptPair]
  | some p =>
    simp only [Option.getD_some] at h1 h2
    simp [readOptPair, encOptPair, List.append_assoc,
      readU32_u32be _ _ h1, readU32_u32be _ _ h2]

theorem readOptPair_enc_nil (o : Option (Nat × Nat))
    (h1 : (o.getD (0, 0)).1 < 4294967296)
    (h2 : (o.getD (0, 0)).2 < 4294967296) :
    readOptPair o.isSome (encOptPair o) = some (o, []) := by
  rw [← List.append_nil (encOptPair o)]
  exact readOptPair_enc o [] h1 h2

theorem attrsFlags_lt (a : Attrs) : attrsFlags a < 4294967296 := by
  simp only [attrsFlags, SSH2_FILEXFER_ATTR_SIZE, SSH2_FILEXFER_ATTR_UIDGID,
    SSH2_FILEXFER_ATTR_PERMISSIONS, SSH2_FILEXFER_ATTR_ACMODTIME]
  split_ifs <;> norm_num

theorem flagsDecideSize (a : Attrs) :
    decide (attrsFlags a &&& SSH2_FILEXFER_ATTR_SIZE ≠ 0) = a.size.isSome := by
  obtain ⟨os, ou, op_, oa⟩ := a
  cases os <;> cases ou <;> cases op_ <;> cases oa <;>
    simp [attrsFlags, SSH2_FILEXFER_ATTR_SIZE, SSH2_FILEXFER_ATTR_UIDGID,
      SSH2_FILEXFER_ATTR_PERMISSIONS, SSH2_FILEXFER_ATTR_ACMODTIME]

theorem flagsDecideUidgid (a : Attrs) :
    decide (attrsFlags a &&& SSH2_FILEXFER_ATTR_UIDGID ≠ 0) = a.uidgid.isSome := by
  obtain ⟨os, ou, op_, oa⟩ := a
  cases os <;> cases ou <;> cases op_ <;> cases oa <;>
    (simp [attrsFlags, SSH2_FILEXFER_ATTR_SIZE, SSH2_FILEXFER_ATTR_UIDGID,
      SSH2_FILEXFER_ATTR_PERMISSIONS, SSH2_FILEXFER_ATTR_ACMODTIME] <;> decide)

theorem flagsDecidePermissions (a : Attrs) :
    decide (attrsFlags a &&& SSH2_FILEXFER_ATTR_PERMISSIONS ≠ 0) =
      a.permissions.isSome := by
  obtain ⟨os, ou, op_, oa⟩ := a
  cases os <;> cases ou <;> cases op_ <;> cases oa <;>
    (simp [attrsFlags, SSH2_FILEXFER_ATTR_SIZE, SSH2_FILEXFER_ATTR_UIDGID,
      SSH2_FILEXFER_ATTR_PERMISSIONS, SSH2_FILEXFER_ATTR_ACMODTIME] <;> decide)

theorem flagsDecideAcmodtime (a : Attrs) :
    decide (attrsFlags a &&& SSH2_FILEXFER_ATTR_ACMODTIME ≠ 0) =
      a.acmodtime.isSome := by
  obtain ⟨os, ou, op_, oa⟩ := a
  cases os <;> cases ou <;> cases op_ <;> cases oa <;>
    (simp [attrsFlags, SSH2_FILEXFER_ATTR_SIZE, SSH2_FILEXFER_ATTR_UIDGID,
      SSH2_FILEXFER_ATTR_PERMISSIONS, SSH2_FILEXFER_ATTR_ACMODTIME] <;> decide)

/-! ## Claim theorems -/

/-- C5: for every attrs record whose present fields are gated only by the
recognized flag bits (SIZE, UIDGID, PERMISSIONS, ACMODTIME) and whose values
fit their machine-integer widths, decoding the bytes produced by the
attribute encoder yields the record back with no bytes left over:
`decode_attrs (encode_attrs a) = some (a, [])`. -/
theorem attrs_roundtrip (a : Attrs) (h : AttrsBounded a) :
    decode_attrs (encode_attrs a) = some (a, []) := by
  obtain ⟨hs, hu1, hu2, hp, ha1, ha2⟩ := h
  rw [decode_attrs, encode_attrs]
  simp only [List.append_assoc]
  rw [readU32_u32be _ _ (attrsFlags_lt a)]
  simp only [Option.some_bind]
  rw [flagsDecideSize, readOptU64_enc _ _ hs]
  simp only [Option.some_bind]
  rw [flagsDecideUidgid, readOptPair_enc _ _ hu1 hu2]
  simp only [Option.some_bind]
  rw [flagsDecidePermissions, readOptU32_enc _ _ hp]
  simp only [Option.some_bind]
  rw [flagsDecideAcmodtime, readOptPair_enc_nil _ ha1 ha2]
  simp only [Option.map_some']

/-- C5 witness: the round trip evaluated at a concrete attrs record with a
size, permissions and timestamps present and uid/gid absent. -/
theorem attrs_roundtrip_witness :
    AttrsBounded ⟨some 100, Option.none, some 33152, some (1415626110, 1415626120)⟩ ∧
    decode_attrs (encode_attrs
        ⟨some 100, Option.none, some 33152, some (1415626110, 1415626120)⟩) =
      some (⟨some 100, Option.none, some 33152, some (1415626110, 1415626120)⟩, []) :=
  ⟨by decide, attrs_roundtrip _ (by decide)⟩

/-- C1 counterexample: the claim says the Hook callback of a handle-based
operation receives the resolved path and never a raw handle id; but the
`fstat` hook method of both `SftpHook` and `UrlRequestHook` is declared with
a `handle_id` parameter and no `filename` parameter. -/
theorem fstat_hook_takes_raw_handle_id :
    "handle_id" ∈ (sftpHookMethodParams "fstat").getD [] ∧
    "filename" ∉ (sftpHookMethodParams "fstat").getD [] ∧
    "handle_id" ∈ (urlRequestHookMethodParams "fstat").getD [] := by
  decide

/-- C1 amended: for every handle-based operation (FSTAT, FSETSTAT, READ,
WRITE, READDIR, CLOSE) the hook callback receives the raw handle id together
with the server instance, and no resolved path; the hook implementation
itself resolves the id to the original path through
`server.get_filename_from_handle_id` before using it, as `UrlRequestHook.fstat`
does when it puts the resolved filename (not the handle id) into the request
data. -/
theorem handle_hooks_resolve_via_server (h : UrlRequestHook)
    (resolve : String → Option (PyVal × Bool)) (hid : String)
    (fn : PyVal) (isDir : Bool) (hres : resolve hid = some (fn, isDir)) :
    (handleBasedMethods.all (fun m =>
        ((sftpHookMethodParams m).getD []).contains "handle_id" &&
        (((sftpHookMethodParams m).getD []).head? == some "server") &&
        !(((sftpHookMethodParams m).getD []).contains "filename")) = true) ∧
    UrlRequestHook.fstat h resolve hid =
      send_requests h "fstat" (some [("filename", fn)]) := by
  refine ⟨by decide, ?_⟩
  simp [UrlRequestHook.fstat, hres]

/-- C1 amended, witness: the resolution behavior evaluated at a concrete
server resolution map and handle id. -/
theorem handle_hooks_resolve_via_server_witness :
    UrlRequestHook.fstat sampleHook
        (fun i => if i = "1" then some (PyVal.str "services", false)
          else Option.none) "1" =
      send_requests sampleHook "fstat" (some [("filename", PyVal.str "services")]) :=
  (handle_hooks_resolve_via_server sampleHook
    (fun i => if i = "1" then some (PyVal.str "services", false) else Option.none)
    "1" (PyVal.str "services") false rfl).2

/-- C2 counterexample: the claim says the Hook interface has one method named
after each opcode's operation; the dispatch table contains REMOVE, but
`SftpHook` defines no method named `remove`. -/
theorem no_hook_method_named_remove :
    "REMOVE" ∈ dispatchOpcodes ∧
    sftpHookMethodParams (opcodeOperationName "REMOVE") = Option.none := by
  decide

/-- C2 amended: for every opcode of the dispatch table the Hook interface
defines exactly one notification method taking the server instance as its
first argument; the method is named by lowercasing the opcode, except REMOVE
whose method is named `rm`; the interface additionally defines an `init`
method outside the table. -/
theorem hook_method_per_opcode :
    (dispatchOpcodes.all (fun op =>
      (sftpHookMethodParams (hookMethodFor op)).isSome &&
      (((sftpHookMethodParams (hookMethodFor op)).getD []).head? ==
        some "server"))) = true ∧
    hookMethodFor "REMOVE" = "rm" ∧
    (dispatchOpcodes.all (fun op =>
      op == "REMOVE" || hookMethodFor op == opcodeOperationName op)) = true ∧
    sftpHookMethodParams "init" = some ["server"] := by
  decide

/-- C3: the WRITE hook notification is supposed to receive the handle, the
offset and the data chunk (as `UrlRequestHook.write` does and as the test
suite asserts), but the base interface `SftpHook.write` (hook.py:48) is
declared without the `chunk` parameter, so the two signatures in the sources
contradict each other: calling the base hook with the chunk raises
`TypeError`. -/
theorem write_hook_chunk_mismatch :
    "chunk" ∉ (sftpHookMethodParams "write").getD [] ∧
    "chunk" ∈ (urlRequestHookMethodParams "write").getD [] ∧
    (sftpHookMethodParams "write").getD [] = ["server", "handle_id", "offset"] ∧
    (urlRequestHookMethodParams "write").getD [] =
      ["server", "handle_id", "offset", "chunk"] := by
  decide

/-- C9: `force_to_iterable` wraps a `str` or `bytes` value (a `bytes` value
whole, never element-wise) in a one-element tuple, returns any other iterable
unchanged, and raises `TypeError` exactly when the argument is neither a
string, bytes, nor an iterable. -/
theorem force_to_iterable_spec :
    (∀ s, force_to_iterable (.str s) = .ok (.tuple [.str s])) ∧
    (∀ b, force_to_iterable (.bytes b) = .ok (.tuple [.bytes b])) ∧
    (∀ vs, force_to_iterable (.list vs) = .ok (.list vs)) ∧
    (∀ vs, force_to_iterable (.tuple vs) = .ok (.tuple vs)) ∧
    (∀ d, force_to_iterable (.dict d) = .ok (.dict d)) ∧
    (∀ n, force_to_iterable (.int n) =
      .error "Provided value should be a string or an iterable.") ∧
    force_to_iterable .none =
      .error "Provided value should be a string or an iterable." ∧
    (∀ v, (∃ e, force_to_iterable v = .error e) ↔
      isStringLike v = false ∧ isIterable v = false) := by
  refine ⟨fun _ => rfl, fun _ => rfl, fun _ => rfl, fun _ => rfl, fun _ => rfl,
    fun _ => rfl, rfl, ?_⟩
  intro v
  cases v <;> simp [force_to_iterable, isStringLike, isIterable]

theorem lookupHandle_freeHandle (st : SessionState) (hid : String) :
    lookupHandle (freeHandle st hid) hid = Option.none := by
  simp [lookupHandle, freeHandle, List.find?_eq_none, List.mem_filter]

theorem step_of_unknown (b : Backend) (st : SessionState) (r : Request)
    (hnone : lookupHandle st r.handleId = Option.none) :
    step b st r = (.status .failure, st) := by
  cases r <;> (simp only [Request.handleId] at hnone; simp [step, hnone])

/-- C4: the hook boundary is a pure side-effecting observation — for any two
hook outcomes (returned values or raised exceptions) the dispatcher produces
the same reply and the same session state, both equal to the backend step's
result; a raised exception is only appended to the log. -/
theorem hook_outcome_immaterial (b : Backend) (st : SessionState)
    (log : List String) (r : Request) (o o' : HookOutcome) :
    (dispatch b st log r o).1 = (step b st r).1 ∧
    (dispatch b st log r o).2.1 = (step b st r).2 ∧
    (dispatch b st log r o).1 = (dispatch b st log r o').1 ∧
    (dispatch b st log r o).2.1 = (dispatch b st log r o').2.1 ∧
    (∀ msg, (dispatch b st log r (.raised msg)).2.2 = log ++ [msg]) :=
  ⟨rfl, rfl, rfl, rfl, fun _ => rfl⟩

/-- C6: a request referencing an unknown handle id — in particular any id
already freed by a successful CLOSE — is answered with a FAILURE status and
leaves the session state unchanged, so the session keeps processing. -/
theorem stale_handle_failure (b : Backend) (st st' : SessionState)
    (hid : String) (r : Request) (hr : r.handleId = hid) :
    (lookupHandle st hid = Option.none →
      step b st r = (.status .failure, st)) ∧
    (step b st (.close hid) = (.status .ok, st') →
      step b st' r = (.status .failure, st')) := by
  constructor
  · intro hnone
    exact step_of_unknown b st r (by rw [hr]; exact hnone)
  · intro hclose
    have hst' : st' = freeHandle st hid := by
      simp only [step] at hclose
      cases hl : lookupHandle st hid <;> rw [hl] at hclose <;> simp_all
    subst hst'
    exact step_of_unknown b _ r (by rw [hr, lookupHandle_freeHandle])

/-- C6 witness: with a concrete one-handle session, CLOSE on id "1" succeeds
and a subsequent FSTAT on the same id is answered with FAILURE, leaving the
state unchanged. -/
theorem stale_handle_failure_witness :
    step failBackend (freeHandle oneFileState "1") (.fstat "1") =
      (.status .failure, freeHandle oneFileState "1") :=
  (stale_handle_failure failBackend oneFileState (freeHandle oneFileState "1")
    "1" (.fstat "1") rfl).2 rfl

/-- C7: once a READDIR on a directory handle has returned EOF, every
subsequent READDIR on that same handle returns EOF again with the same
state — the enumeration never restarts. -/
theorem readdir_eof_idempotent (b : Backend) (st st' : SessionState)
    (hid : String)
    (h : step b st (.readdir hid) = (.status .eof, st')) :
    step b st' (.readdir hid) = (.status .eof, st') := by
  simp only [step] at h
  split at h
  · simp at h
  · rename_i hd hl
    split at h
    · simp at h
    · rename_i hk
      simp only [Prod.mk.injEq] at h
      obtain ⟨-, hst⟩ := h
      subst hst
      simp [step, hl, hk]
    · simp at h

/-- C7 witness: with a concrete exhausted directory handle, READDIR on id
"1" returns EOF, and the theorem applied there yields EOF again. -/
theorem readdir_eof_idempotent_witness :
    step failBackend exhaustedDirState (.readdir "1") =
      (.status .eof, exhaustedDirState) :=
  readdir_eof_idempotent failBackend exhaustedDirState exhaustedDirState "1" rfl

theorem strList_map_str (us : List String) :
    strList (us.map PyVal.str) = .ok us := by
  induction us with
  | nil => rfl
  | cons u t ih => simp [strList, elemStr, ih]

theorem dictGet_dictSet_self (d : List (String × PyVal)) (k : String)
    (v : PyVal) : dictGet (dictSet d k v) k = some v := by
  induction d with
  | nil => simp [dictSet, dictGet]
  | cons p rest ih =>
    by_cases h : p.1 = k
    · simp [dictSet, h, dictGet]
    · simpa [dictSet, h, dictGet, List.find?] using ih

theorem dictGet_dictSet_other (d : List (String × PyVal)) (k k' : String)
    (v : PyVal) (hk : k' ≠ k) :
    dictGet (dictSet d k v) k' = dictGet d k' := by
  induction d with
  | nil => simp [dictSet, dictGet, List.find?, Ne.symm hk]
  | cons p rest ih =>
    by_cases h : p.1 = k
    · simp [dictSet, h, dictGet, List.find?, Ne.symm hk]
    · by_cases h2 : p.1 = k'
      · simp [dictSet, h, dictGet, List.find?, h2, hk]
      · simpa [dictSet, h, dictGet, List.find?, h2] using ih

/-- C8: `get_urls` yields the Cartesian product of `os.path.join(u, p)` over
the base urls (the method's entry of `urls_mapping`, defaulting to the single
`request_url`) and the paths (the method's entry of `paths_mapping`,
defaulting to the single method name), with base urls in the outer loop; in
particular, when neither mapping contains the method the single produced url
is `request_url ++ "/" ++ method`, and a method mapped to the empty path
string produces the base url with a trailing `/` appended rather than the
base url itself. -/
theorem get_urls_product (h : UrlRequestHook) (m : String)
    (us ps : List String) :
    (dictGet h.urls_mapping m = some (.list (us.map PyVal.str)) →
     dictGet h.paths_mapping m = some (.list (ps.map PyVal.str)) →
     get_urls h m = .ok (us.flatMap (fun u => ps.map (fun p => pathJoin u p)))) ∧
    (dictGet h.urls_mapping m = Option.none →
     dictGet h.paths_mapping m = Option.none →
     h.request_url ≠ "" → ¬ strEndsWith h.request_url "/" →
     ¬ strStartsWith m "/" →
     get_urls h m = .ok [h.request_url ++ "/" ++ m]) ∧
    (dictGet h.urls_mapping m = Option.none →
     dictGet h.paths_mapping m = some (.str "") →
     h.request_url ≠ "" → ¬ strEndsWith h.request_url "/" →
     get_urls h m = .ok [h.request_url ++ "/"] ∧
       h.request_url ++ "/" ≠ h.request_url) := by
  refine ⟨?_, ?_, ?_⟩
  · intro hu hp
    simp [get_urls, hu, hp, force_to_iterable, isStringLike, isIterable,
      iterElems, strList_map_str]
  · intro hu hp hr1 hr2 hm
    simp [get_urls, hu, hp, force_to_iterable, isStringLike, isIterable,
      iterElems, strList, elemStr, pathJoin, hm, hr1, hr2]
  · intro hu hp hr1 hr2
    refine ⟨?_, ?_⟩
    · simp [get_urls, hu, hp, force_to_iterable, isStringLike, isIterable,
        iterElems, strList, elemStr, pathJoin, hr1, hr2, strStartsWith]
    · intro heq
      have h1 : strEndsWith (h.request_url ++ "/") "/" = true := by
        simp [strEndsWith, String.toList, String.data_append]
      rw [heq] at h1
      exact hr2 h1

/-- C8 witness: the Cartesian product evaluated at the test suite's mapped
configuration for `readlink`, and the unmapped default evaluated for
`realpath`. -/
theorem get_urls_product_witness :
    get_urls mappedHook "readlink" =
      .ok ["test_url_1/test_path_1", "test_url_1/test_path_2",
        "test_url_2/test_path_1", "test_url_2/test_path_2"] ∧
    get_urls sampleHook "realpath" = .ok ["test_url/realpath"] :=
  ⟨((get_urls_product mappedHook "readlink" ["test_url_1", "test_url_2"]
      ["test_path_1", "test_path_2"]).1 rfl rfl).trans rfl,
   ((get_urls_product sampleHook "realpath" [] []).2.1 rfl rfl
      (by decide) (by decide) (by decide)).trans rfl⟩

/-- C10: `send_requests` updates the caller-supplied dict by setting its
`method` key to the hook method name, leaves every other key unchanged, and
issues one request per url produced by `get_urls`, with the instance's
`request_method` (which `__init__` defaults to `POST`) and the updated dict
as the request data. -/
theorem send_requests_spec (h : UrlRequestHook) (m u : String)
    (d : List (String × PyVal)) (urls : List String)
    (hu : get_urls h m = .ok urls) :
    send_requests h m (some d) =
      .ok (dictSet d "method" (.str m),
        urls.map (fun x =>
          ⟨h.request_method, x, dictSet d "method" (.str m)⟩)) ∧
    dictGet (dictSet d "method" (.str m)) "method" = some (.str m) ∧
    (∀ k, k ≠ "method" →
      dictGet (dictSet d "method" (.str m)) k = dictGet d k) ∧
    (UrlRequestHook.defaultInit u).request_method = "POST" := by
  refine ⟨?_, dictGet_dictSet_self d "method" (.str m), ?_, rfl⟩
  · simp [send_requests, hu]
  · intro k hk
    exact dictGet_dictSet_other d "method" k (.str m) hk

/-- C10 witness: `send_requests` evaluated at the default-initialized hook
with a one-key data dict, as in the test suite's `realpath` test. -/
theorem send_requests_spec_witness :
    send_requests sampleHook "realpath"
        (some [("filename", PyVal.str "services")]) =
      .ok ([("filename", PyVal.str "services"),
            ("method", PyVal.str "realpath")],
        [{ method := "POST", url := "test_url/realpath",
           data := [("filename", PyVal.str "services"),
             ("method", PyVal.str "realpath")] }]) :=
  ((send_requests_spec sampleHook "realpath" "u"
      [("filename", PyVal.str "services")] ["test_url/realpath"] rfl).1).trans
    rfl

end PySftp
